import Mathlib

/-!
Shallow embedding of the selection-hook Windows engine
(src/src/windows/selection_hook.cc, src/src/windows/lib/utils.cc,
src/src/windows/lib/clipboard.cc) in Lean 4.

Conventions used throughout:
* wide strings (std::wstring) are modelled as List Char;
* HWND handles are Nat, a nullable handle is Option Nat (none = NULL);
* DWORD tick counts are Nat reduced mod 2^32 where the code subtracts them;
* OS observations (key state, clipboard sequence changes, accessibility
  query outcomes) are supplied by explicit environment records, one field
  per call site of the corresponding Windows API;
* member functions that mutate a TextSelectionInfo in place and return a
  BOOL are modelled as functions returning a pair of the Bool and the
  updated record.
-/

/-- POINT (screen coordinates). -/
structure Pt where
  x : Int
  y : Int
deriving DecidableEq

/-- RECT (left/top/right/bottom, screen coordinates). -/
structure Rect where
  left : Int
  top : Int
  right : Int
  bottom : Int
deriving DecidableEq

/-- Window handle; none models a NULL HWND. -/
abbrev Wnd := Nat

/-- Wide string. -/
abbrev Str := List Char

/-- enum class SelectionDetectType. -/
inductive SelectionDetectType where
  | None
  | Drag
  | DoubleClick
  | ShiftClick
deriving DecidableEq

/-- enum class SelectionMethod. -/
inductive SelectionMethod where
  | None
  | UIA
  | FocusControl
  | Accessible
  | Clipboard
deriving DecidableEq

/-- enum class SelectionPositionLevel. -/
inductive SelectionPositionLevel where
  | None
  | MouseSingle
  | MouseDual
  | Full
  | Detailed
deriving DecidableEq

/-- enum class FilterMode. -/
inductive FilterMode where
  | Default
  | IncludeList
  | ExcludeList
deriving DecidableEq

/-- enum class CopyKeyType (keystroke sent by SendCopyKey). -/
inductive CopyKeyType where
  | CtrlInsert
  | CtrlC
deriving DecidableEq

/-- Integer value of SelectionMethod, as static_cast<int> in
CreateSelectionResultObject. -/
def SelectionMethod.toInt : SelectionMethod → Int
  | .None => 0
  | .UIA => 1
  | .FocusControl => 2
  | .Accessible => 3
  | .Clipboard => 4

/-- Integer value of SelectionPositionLevel, as static_cast<int> in
CreateSelectionResultObject. -/
def SelectionPositionLevel.toInt : SelectionPositionLevel → Int
  | .None => 0
  | .MouseSingle => 1
  | .MouseDual => 2
  | .Full => 3
  | .Detailed => 4

/-- struct TextSelectionInfo. -/
structure TextSelectionInfo where
  text : Str
  programName : Str
  startTop : Pt
  startBottom : Pt
  endTop : Pt
  endBottom : Pt
  mousePosStart : Pt
  mousePosEnd : Pt
  method : SelectionMethod
  posLevel : SelectionPositionLevel
deriving DecidableEq

/-- TextSelectionInfo::TextSelectionInfo() / TextSelectionInfo::clear():
all points zeroed, method None, posLevel None, empty text. -/
def TextSelectionInfo.clear (info : TextSelectionInfo) : TextSelectionInfo :=
  { info with
    text := []
    startTop := ⟨0, 0⟩, startBottom := ⟨0, 0⟩
    endTop := ⟨0, 0⟩, endBottom := ⟨0, 0⟩
    mousePosStart := ⟨0, 0⟩, mousePosEnd := ⟨0, 0⟩
    method := SelectionMethod.None
    posLevel := SelectionPositionLevel.None }

/-- The default-constructed TextSelectionInfo. -/
def TextSelectionInfo.init : TextSelectionInfo :=
  { text := []
    programName := []
    startTop := ⟨0, 0⟩, startBottom := ⟨0, 0⟩
    endTop := ⟨0, 0⟩, endBottom := ⟨0, 0⟩
    mousePosStart := ⟨0, 0⟩, mousePosEnd := ⟨0, 0⟩
    method := SelectionMethod.None
    posLevel := SelectionPositionLevel.None }

/-- DWORD subtraction a - b, i.e. subtraction mod 2^32 (tick-count
differences in the source are computed on DWORD). -/
def dwSub (a b : Nat) : Nat :=
  (a % 2 ^ 32 + 2 ^ 32 - b % 2 ^ 32) % 2 ^ 32

/-- Squared Euclidean distance.  The source computes
sqrt(dx*dx + dy*dy) into a double and compares it against the integer
thresholds 8 and 3; for integer dx, dy this is equivalent to comparing
the squared distance against 64 resp. 9, which is how every comparison
below is stated. -/
def dist2 (p q : Pt) : Int :=
  (p.x - q.x) * (p.x - q.x) + (p.y - q.y) * (p.y - q.y)

/-- towlower restricted to ASCII, the only case the filter lists use
(program names and list entries are executable names). -/
def towlower (c : Char) : Char :=
  if 65 ≤ c.toNat ∧ c.toNat ≤ 90 then Char.ofNat (c.toNat + 32) else c

/-- std::string::find(needle) != npos, on lists of characters:
true iff needle occurs as a contiguous substring of hay (the empty
needle is found at position 0). -/
def hasSub (hay needle : Str) : Bool :=
  if needle.isPrefixOf hay then true
  else
    match hay with
    | [] => false
    | _ :: t => hasSub t needle

/-- IsTrimmedEmpty (lib/utils.cc): true iff the string is empty after
trimming the whitespace set { space, tab, newline, carriage return }
from both ends; equivalently, every character is in that set. -/
def isWsp (c : Char) : Bool :=
  c = ' ' ∨ c = '\t' ∨ c = '\n' ∨ c = '\r'

/-- IsTrimmedEmpty: erasing leading and trailing whitespace leaves the
empty string exactly when dropping leading whitespace already does. -/
def IsTrimmedEmpty (text : Str) : Bool :=
  (text.dropWhile isWsp).isEmpty

/-- SelectionHook::IsInFilterList: an empty list matches nothing;
otherwise the program name is lowercased and each (already lowercase)
list entry is looked up as a substring. -/
def IsInFilterList (programName : Str) (filterList : List Str) : Bool :=
  if filterList.isEmpty then false
  else
    let lowerProgramName := programName.map towlower
    filterList.any fun filterItem => hasSub lowerProgramName filterItem

/-- HasWindowMoved (lib/utils.cc): any of the four edges differs by more
than 2 pixels. -/
def HasWindowMoved (currentWindowRect lastWindowRect : Rect) : Bool :=
  (currentWindowRect.left - lastWindowRect.left).natAbs > 2 ∨
  (currentWindowRect.top - lastWindowRect.top).natAbs > 2 ∨
  (currentWindowRect.right - lastWindowRect.right).natAbs > 2 ∨
  (currentWindowRect.bottom - lastWindowRect.bottom).natAbs > 2

/-- GetWindowUnderMouse (lib/utils.cc).  Arguments model the outcomes of
GetCursorPos, WindowFromPoint at the cursor position, and
GetForegroundWindow. -/
def GetWindowUnderMouse (cursorPosOk : Bool) (windowFromPoint : Option Wnd)
    (foregroundWindow : Option Wnd) : Option Wnd :=
  if ¬cursorPosOk then none
  else
    match windowFromPoint with
    | some h => some h
    | none => foregroundWindow

/-- The persistent static locals of SelectionHook::ProcessMouseEvent
(the gesture-classifier state retained across mouse events). -/
structure GestureState where
  lastLastMouseUpPos : Pt
  lastMouseUpPos : Pt
  lastMouseUpTime : Nat
  lastMouseDownPos : Pt
  lastMouseDownTime : Nat
  isLastValidClick : Bool
  lastWindowHandler : Option Wnd
  lastWindowRect : Rect
deriving DecidableEq

/-- Initial values of the static locals (zero-initialised, no window). -/
def GestureState.init : GestureState :=
  { lastLastMouseUpPos := ⟨0, 0⟩
    lastMouseUpPos := ⟨0, 0⟩
    lastMouseUpTime := 0
    lastMouseDownPos := ⟨0, 0⟩
    lastMouseDownTime := 0
    isLastValidClick := false
    lastWindowHandler := none
    lastWindowRect := ⟨0, 0, 0, 0⟩ }

/-- Ambient observations made while handling WM_LBUTTONDOWN. -/
structure MouseDownEnv where
  currentPos : Pt
  currentTime : Nat
  windowUnderMouse : Option Wnd
  windowRect : Rect
deriving DecidableEq

/-- The WM_LBUTTONDOWN branch of ProcessMouseEvent: record time,
position, window under cursor and (when one exists) its rectangle. -/
def processLButtonDown (st : GestureState) (e : MouseDownEnv) : GestureState :=
  { st with
    lastMouseDownTime := e.currentTime
    lastMouseDownPos := e.currentPos
    lastWindowHandler := e.windowUnderMouse
    lastWindowRect :=
      match e.windowUnderMouse with
      | some _ => e.windowRect
      | none => st.lastWindowRect }

/-- Ambient observations made while handling WM_LBUTTONUP. -/
structure MouseUpEnv where
  currentPos : Pt
  currentTime : Nat
  passiveMode : Bool
  doubleClickTime : Nat
  windowUnderMouse : Option Wnd
  windowRectAtUp : Rect
  shiftPressed : Bool
  ctrlPressed : Bool
  altPressed : Bool
deriving DecidableEq

/-- MIN_DRAG_DISTANCE = 8 (compared via squared distance 64). -/
def MIN_DRAG_DISTANCE_SQ : Int := 64

/-- MAX_DRAG_TIME_MS = 8000. -/
def MAX_DRAG_TIME_MS : Nat := 8000

/-- DOUBLE_CLICK_MAX_DISTANCE = 3 (compared via squared distance 9). -/
def DOUBLE_CLICK_MAX_DISTANCE_SQ : Int := 9

/-- The WM_LBUTTONUP branch of ProcessMouseEvent: classify the gesture
and update the static locals.  Returns the detection type together with
the new state. -/
def processLButtonUp (st : GestureState) (e : MouseUpEnv) :
    SelectionDetectType × GestureState :=
  if e.passiveMode then
    (SelectionDetectType.None,
      { st with
        lastLastMouseUpPos := st.lastMouseUpPos
        lastMouseUpTime := e.currentTime
        lastMouseUpPos := e.currentPos })
  else
    let distanceSq := dist2 e.currentPos st.lastMouseDownPos
    let isCurrentValidClick :=
      dwSub e.currentTime st.lastMouseDownTime ≤ e.doubleClickTime
    let detectionType :=
      if dwSub e.currentTime st.lastMouseDownTime > MAX_DRAG_TIME_MS then
        SelectionDetectType.None
      else if distanceSq ≥ MIN_DRAG_DISTANCE_SQ then
        match e.windowUnderMouse, st.lastWindowHandler with
        | some hwnd, some lastHwnd =>
          if hwnd = lastHwnd ∧ ¬HasWindowMoved e.windowRectAtUp st.lastWindowRect then
            SelectionDetectType.Drag
          else SelectionDetectType.None
        | _, _ => SelectionDetectType.None
      else if st.isLastValidClick ∧ isCurrentValidClick ∧
          distanceSq ≤ DOUBLE_CLICK_MAX_DISTANCE_SQ then
        if dist2 e.currentPos st.lastMouseUpPos ≤ DOUBLE_CLICK_MAX_DISTANCE_SQ ∧
            dwSub st.lastMouseDownTime st.lastMouseUpTime ≤ e.doubleClickTime then
          SelectionDetectType.DoubleClick
        else SelectionDetectType.None
      else SelectionDetectType.None
    let detectionType :=
      if detectionType = SelectionDetectType.None ∧
          e.shiftPressed ∧ ¬e.ctrlPressed ∧ ¬e.altPressed then
        SelectionDetectType.ShiftClick
      else detectionType
    (detectionType,
      { st with
        isLastValidClick := isCurrentValidClick
        lastLastMouseUpPos := st.lastMouseUpPos
        lastMouseUpTime := e.currentTime
        lastMouseUpPos := e.currentPos })

/-- The post-extraction switch of ProcessMouseEvent: stamp the mouse
positions of the gesture onto the selection and upgrade a None position
level to MouseDual (drag, shift-click) or MouseSingle (double-click). -/
def applyGesturePosition (dt : SelectionDetectType)
    (lastMouseDownPos lastMouseUpPos lastLastMouseUpPos : Pt)
    (info : TextSelectionInfo) : TextSelectionInfo :=
  match dt with
  | SelectionDetectType.None => info
  | SelectionDetectType.Drag =>
    let info := { info with
      mousePosStart := lastMouseDownPos, mousePosEnd := lastMouseUpPos }
    if info.posLevel = SelectionPositionLevel.None then
      { info with posLevel := SelectionPositionLevel.MouseDual }
    else info
  | SelectionDetectType.DoubleClick =>
    let info := { info with
      mousePosStart := lastMouseUpPos, mousePosEnd := lastMouseUpPos }
    if info.posLevel = SelectionPositionLevel.None then
      { info with posLevel := SelectionPositionLevel.MouseSingle }
    else info
  | SelectionDetectType.ShiftClick =>
    let info := { info with
      mousePosStart := lastLastMouseUpPos, mousePosEnd := lastMouseUpPos }
    if info.posLevel = SelectionPositionLevel.None then
      { info with posLevel := SelectionPositionLevel.MouseDual }
    else info

/-- Cursor shape snapshotted at mouse-up, classified by the comparisons
ShouldProcessViaClipboard performs against LoadCursor(IDC_IBEAM),
LoadCursor(IDC_ARROW) and LoadCursor(IDC_HAND); other covers every other
handle (including the initial NULL). -/
inductive CursorKind where
  | beam
  | arrow
  | hand
  | other
deriving DecidableEq

/-- UIA_GroupControlTypeId. -/
def UIA_GroupControlTypeId : Int := 50026

/-- UIA_DocumentControlTypeId. -/
def UIA_DocumentControlTypeId : Int := 50030

/-- UIA_TextControlTypeId. -/
def UIA_TextControlTypeId : Int := 50020

/-- UIA_WindowControlTypeId (initial value of uia_control_type). -/
def UIA_WindowControlTypeId : Int := 50032

/-- The clipboard-gate configuration members of SelectionHook. -/
structure ClipboardGateCfg where
  is_enabled_clipboard : Bool
  clipboard_filter_mode : FilterMode
  clipboard_filter_list : List Str
  ftl_exclude_clipboard_cursor_detect : List Str
deriving DecidableEq

/-- The instance state ShouldProcessViaClipboard consults besides the
configuration: whether the call is user triggered, the snapshotted
mouse-up cursor, and the control type recorded by the last UIA query. -/
structure ClipboardGateEnv where
  is_triggered_by_user : Bool
  mouse_up_cursor : CursorKind
  uia_control_type : Int
deriving DecidableEq

/-- SelectionHook::ShouldProcessViaClipboard. -/
def ShouldProcessViaClipboard (cfg : ClipboardGateCfg) (env : ClipboardGateEnv)
    (programName : Str) : Bool :=
  if ¬cfg.is_enabled_clipboard then false
  else
    let result : Bool :=
      match cfg.clipboard_filter_mode with
      | FilterMode.Default => true
      | FilterMode.IncludeList =>
        IsInFilterList programName cfg.clipboard_filter_list
      | FilterMode.ExcludeList =>
        !IsInFilterList programName cfg.clipboard_filter_list
    if ¬result then false
    else if ¬env.is_triggered_by_user then
      if env.mouse_up_cursor ≠ CursorKind.beam then
        if env.mouse_up_cursor ≠ CursorKind.arrow ∧
            env.mouse_up_cursor ≠ CursorKind.hand then
          if IsInFilterList programName cfg.ftl_exclude_clipboard_cursor_detect then
            true
          else false
        else if env.uia_control_type ≠ UIA_GroupControlTypeId ∧
            env.uia_control_type ≠ UIA_DocumentControlTypeId ∧
            env.uia_control_type ≠ UIA_TextControlTypeId then
          false
        else true
      else true
    else true

/-- ReadClipboard (lib/clipboard.cc) on the current clipboard text:
succeeds exactly when text content is present; an empty clipboard is
modelled as the empty string (no CF_UNICODETEXT / CF_TEXT data). -/
def readClip (clip : Str) : Bool × Str :=
  (¬clip.isEmpty, clip)

/-- SelectionHook::ShouldKeyInterruptViaClipboard: interrupt when the
call is not user triggered and Ctrl is currently held. -/
def ShouldKeyInterruptViaClipboard (is_triggered_by_user ctrlPressing : Bool) : Bool :=
  ¬is_triggered_by_user ∧ ctrlPressing

/-- Environment of one GetTextViaClipboard invocation: the ambient
clipboard content, the per-poll observations of the pre-check loop, and
the outcomes of the copy-shortcut polling phases.  A seq-change field
some i means the clipboard sequence number was first observed changed at
poll i of that phase; the corresponding copied field is the content the
copying application placed on the clipboard at that moment. -/
structure ClipEnv where
  clip0 : Str
  preSeqChanged : Nat → Bool
  preCopied : Str
  preCtrl : Nat → Bool
  preC : Nat → Bool
  preX : Nat → Bool
  preV : Nat → Bool
  openOk : Bool
  delayReadList : List Str
  ctrlAtInsertCheck : Bool
  insertSeqChangeAt : Option Nat
  insertCopied : Str
  ctrlAtCtrlCCheck : Bool
  ctrlCSeqChangeAt : Option Nat
  ctrlCCopied : Str
  ctrlAtAfterCopyCheck : Bool

/-- Which return statement of GetTextViaClipboard was taken. -/
inductive ClipExit where
  | invalidHwnd
  | preDirect
  | preAbstain
  | openFail
  | interruptInsert
  | insertRead
  | interruptCtrlC
  | ctrlCTimeout
  | interruptAfterCopy
  | ctrlCRead
deriving DecidableEq

/-- Result of one GetTextViaClipboard invocation: the returned Bool, the
text written into selectionInfo, the clipboard content when the function
returns, whether the snapshot-and-clear step ran, the snapshot it took,
the copy shortcuts sent, and the exit path taken. -/
structure ClipResult where
  ok : Bool
  text : Str
  clip : Str
  snapshotTaken : Bool
  snapshot : Str
  copyKeysSent : List CopyKeyType
  exit : ClipExit
deriving DecidableEq

/-- Outcome of the key-check preprocessing loop at the top of
GetTextViaClipboard. -/
inductive PreCheckOutcome where
  | direct (ok : Bool) (text : Str)
  | abstain
  | proceed
deriving DecidableEq

/-- The pre-check while loop of GetTextViaClipboard, with the
accumulated isCtrlPressed/isCPressed/isXPressed/isVPressed flags and the
checkCount counter as arguments.  Each iteration first tests the
clipboard sequence number (reading and returning directly on a change),
then samples the four key states; if none is held it breaks out, and
otherwise, the call not being user triggered, it returns failure.  The
post-loop checks (checkCount >= maxChecks, and the accumulated
user-copy-behaviour flags) are folded into the outcomes; checksLeft is
maxChecks - checkCount, so exhausting it is exactly the
checkCount >= maxChecks exit. -/
def preCheckLoop (env : ClipEnv) (is_triggered_by_user : Bool)
    (isCtrlPressed isCPressed isXPressed isVPressed : Bool) :
    (checksLeft checkCount : Nat) → PreCheckOutcome
  | 0, _ => PreCheckOutcome.abstain
  | checksLeft + 1, checkCount =>
    if env.preSeqChanged checkCount then
      let (readOk, t) := readClip env.preCopied
      PreCheckOutcome.direct (readOk ∧ ¬t.isEmpty) t
    else
      let isCtrlPressing := env.preCtrl checkCount
      let isCPressing := env.preC checkCount
      let isXPressing := env.preX checkCount
      let isVPressing := env.preV checkCount
      if ¬isCtrlPressing ∧ ¬isCPressing ∧ ¬isXPressing ∧ ¬isVPressing then
        if isCtrlPressed ∧ (isCPressed ∨ isXPressed ∨ isVPressed) then
          PreCheckOutcome.abstain
        else PreCheckOutcome.proceed
      else if ¬is_triggered_by_user then
        PreCheckOutcome.abstain
      else
        preCheckLoop env is_triggered_by_user
          (isCtrlPressed ∨ isCtrlPressing) (isCPressed ∨ isCPressing)
          (isXPressed ∨ isXPressing) (isVPressed ∨ isVPressing)
          checksLeft (checkCount + 1)

/-- The Ctrl+C phase of GetTextViaClipboard (reached when the
Ctrl+Insert attempt timed out or the program is on the delay-read
list). -/
def ctrlCPhase (env : ClipEnv) (is_triggered_by_user : Bool)
    (snapshot : Str) (_isInDelayReadList : Bool)
    (keysSoFar : List CopyKeyType) : ClipResult :=
  if ShouldKeyInterruptViaClipboard is_triggered_by_user env.ctrlAtCtrlCCheck then
    { ok := false, text := [], clip := [], snapshotTaken := true
      snapshot := snapshot, copyKeysSent := keysSoFar
      exit := ClipExit.interruptCtrlC }
  else
    let keys := keysSoFar ++ [CopyKeyType.CtrlC]
    match env.ctrlCSeqChangeAt with
    | some i =>
      if i < 36 then
        let clipNow := env.ctrlCCopied
        if ShouldKeyInterruptViaClipboard is_triggered_by_user
            env.ctrlAtAfterCopyCheck then
          { ok := false, text := [], clip := clipNow, snapshotTaken := true
            snapshot := snapshot, copyKeysSent := keys
            exit := ClipExit.interruptAfterCopy }
        else
          let (readOk, t) := readClip clipNow
          let clipFinal := if ¬snapshot.isEmpty then snapshot else clipNow
          { ok := readOk ∧ ¬t.isEmpty, text := t, clip := clipFinal
            snapshotTaken := true, snapshot := snapshot
            copyKeysSent := keys, exit := ClipExit.ctrlCRead }
      else
        let clipFinal := if ¬snapshot.isEmpty then snapshot else []
        { ok := false, text := [], clip := clipFinal, snapshotTaken := true
          snapshot := snapshot, copyKeysSent := keys
          exit := ClipExit.ctrlCTimeout }
    | none =>
      let clipFinal := if ¬snapshot.isEmpty then snapshot else []
      { ok := false, text := [], clip := clipFinal, snapshotTaken := true
        snapshot := snapshot, copyKeysSent := keys
        exit := ClipExit.ctrlCTimeout }

/-- SelectionHook::GetTextViaClipboard.  The isInDelayReadList flag is
computed from the selectionInfo program name exactly as in the source;
the delay sleeps do not affect the modelled state and are dropped. -/
def GetTextViaClipboard (env : ClipEnv) (is_triggered_by_user : Bool)
    (hwndValid : Bool) (info : TextSelectionInfo) : ClipResult :=
  if ¬hwndValid then
    { ok := false, text := [], clip := env.clip0, snapshotTaken := false
      snapshot := [], copyKeysSent := [], exit := ClipExit.invalidHwnd }
  else
    let pre :=
      if ¬is_triggered_by_user then
        preCheckLoop env is_triggered_by_user false false false false 5 0
      else PreCheckOutcome.proceed
    match pre with
    | PreCheckOutcome.direct ok t =>
      { ok := ok, text := t, clip := env.preCopied, snapshotTaken := false
        snapshot := [], copyKeysSent := [], exit := ClipExit.preDirect }
    | PreCheckOutcome.abstain =>
      { ok := false, text := [], clip := env.clip0, snapshotTaken := false
        snapshot := [], copyKeysSent := [], exit := ClipExit.preAbstain }
    | PreCheckOutcome.proceed =>
      if ¬env.openOk then
        { ok := false, text := [], clip := env.clip0, snapshotTaken := false
          snapshot := [], copyKeysSent := [], exit := ClipExit.openFail }
      else
        -- ReadClipboard(existingContent, true) then EmptyClipboard():
        -- the snapshot is the entry content and the clipboard becomes
        -- empty.
        let existingContent := env.clip0
        let isInDelayReadList :=
          ¬info.programName.isEmpty ∧
            IsInFilterList info.programName env.delayReadList
        if ¬isInDelayReadList then
          if ShouldKeyInterruptViaClipboard is_triggered_by_user
              env.ctrlAtInsertCheck then
            { ok := false, text := [], clip := [], snapshotTaken := true
              snapshot := existingContent, copyKeysSent := []
              exit := ClipExit.interruptInsert }
          else
            let keys := [CopyKeyType.CtrlInsert]
            match env.insertSeqChangeAt with
            | some i =>
              if i < 20 then
                let clipNow := env.insertCopied
                let (readOk, t) := readClip clipNow
                let clipFinal :=
                  if ¬existingContent.isEmpty then existingContent else clipNow
                { ok := readOk ∧ ¬t.isEmpty, text := t, clip := clipFinal
                  snapshotTaken := true, snapshot := existingContent
                  copyKeysSent := keys, exit := ClipExit.insertRead }
              else
                ctrlCPhase env is_triggered_by_user existingContent
                  isInDelayReadList keys
            | none =>
              ctrlCPhase env is_triggered_by_user existingContent
                isInDelayReadList keys
        else
          ctrlCPhase env is_triggered_by_user existingContent
            isInDelayReadList []

/-- One bounding rectangle of a text range, one left/top/width/height
quadruple of the flat double array returned by GetBoundingRectangles.
The doubles are modelled at integer pixel coordinates, on which they are
exact and on which the static_cast<LONG> conversions of the source are
the identity. -/
structure QRect where
  l : Int
  t : Int
  w : Int
  h : Int
deriving DecidableEq

/-- The rectangle-validity test of SetTextRangeCoordinates: width
strictly greater than 1 pixel and height strictly less than 100
pixels. -/
def validRect (r : QRect) : Bool :=
  1 < r.w ∧ r.h < 100

/-- SelectionHook::SetTextRangeCoordinates.  The argument models the
outcome of GetBoundingRectangles (none = failure or null array).  On
success the first valid rectangle gives the start corners, the last
valid one the end corners, and posLevel becomes Full; with no valid
rectangle the function returns false leaving selectionInfo unchanged. -/
def SetTextRangeCoordinates (rects : Option (List QRect))
    (info : TextSelectionInfo) : Bool × TextSelectionInfo :=
  match rects with
  | none => (false, info)
  | some rs =>
    match rs.find? validRect, rs.reverse.find? validRect with
    | some fr, some lr =>
      (true,
        { info with
          startTop := ⟨fr.l, fr.t⟩
          startBottom := ⟨fr.l, fr.t + fr.h⟩
          endBottom := ⟨lr.l + lr.w, lr.t + lr.h⟩
          endTop := ⟨lr.l + lr.w, lr.t⟩
          posLevel := SelectionPositionLevel.Full })
    | _, _ => (false, info)

/-- One element of the GetSelection text-range array: the outcome of
GetText on it and of GetBoundingRectangles on it. -/
structure UiaRange where
  textOk : Bool
  text : Str
  rects : Option (List QRect)
deriving DecidableEq

/-- The document-range observations of the second UIA approach: the
direct attribute/text query on the document range, and the queries
repeated after ExpandToEnclosingUnit(TextUnit_Document). -/
structure DocRangeEnv where
  attrOk : Bool
  attrActive : Bool
  textOk : Bool
  text : Str
  rects : Option (List QRect)
  expandOk : Bool
  exTextOk : Bool
  exText : Str
  exAttrOk : Bool
  exAttrActive : Bool
  exRects : Option (List QRect)
deriving DecidableEq

/-- Outcome of get_accSelection in the legacy-accessible bridge.  The
dispatch case folds the QueryInterface and the get_accName /
get_accValue calls: name is some s when accName succeeded with a
non-null BSTR of positive length, value is some s when accValue
succeeded with a non-null BSTR.  The arr case carries the accValue of
the first array element when every step succeeded. -/
inductive AccSel where
  | empty
  | bstr (s : Str)
  | dispatch (name : Option Str) (value : Option Str)
  | arr (first : Option Str)
deriving DecidableEq

/-- The legacy-accessible observations of the third UIA approach. -/
structure LegacyEnv where
  patternOk : Bool
  accOk : Bool
  sel : AccSel
deriving DecidableEq

/-- Environment of one GetTextViaUIAutomation invocation. -/
structure UiaEnv where
  elementOk : Bool
  focusedOk : Bool
  controlTypeOk : Bool
  controlType : Int
  patternOk : Bool
  selRangesOk : Bool
  selRanges : List UiaRange
  docOk : Bool
  doc : DocRangeEnv
  legacy : LegacyEnv
deriving DecidableEq

/-- Which of the three UIA approaches produced the successful result. -/
inductive UiaApproachTag where
  | selRange
  | docRange
  | legacyBridge
deriving DecidableEq

/-- Result of GetTextViaUIAutomation: the returned Bool, the updated
selectionInfo, and (when successful) the approach that produced it. -/
structure UiaResult where
  ok : Bool
  info : TextSelectionInfo
  via : Option UiaApproachTag
deriving DecidableEq

/-- First UIA approach: iterate the GetSelection ranges until one with
non-empty text also yields valid coordinates.  The text of a range is
written into selectionInfo before the coordinate check, matching the
source. -/
def uiaApproach1 (ranges : List UiaRange) (info : TextSelectionInfo) :
    Bool × TextSelectionInfo :=
  match ranges with
  | [] => (false, info)
  | r :: rest =>
    if r.textOk then
      let info := { info with text := r.text }
      if ¬info.text.isEmpty then
        let (res, info) := SetTextRangeCoordinates r.rects info
        if res then (true, info) else uiaApproach1 rest info
      else uiaApproach1 rest info
    else uiaApproach1 rest info

/-- The expand-to-document sub-branch of the second UIA approach, run
when no active selection was established directly on the document range
(hasSelection stayed false). -/
def uiaApproach2Expand (d : DocRangeEnv) (info : TextSelectionInfo) :
    Bool × TextSelectionInfo :=
  if d.expandOk ∧ d.exTextOk then
    if d.exAttrOk ∧ d.exAttrActive ∧ ¬d.exText.isEmpty then
      let info := { info with text := d.exText }
      SetTextRangeCoordinates d.exRects info
    else (false, info)
  else (false, info)

/-- Second UIA approach: the document range, first checked directly for
an active selection (hasSelection becomes true exactly when that check
also yields valid coordinates), then re-checked after
ExpandToEnclosingUnit(TextUnit_Document) when it did not. -/
def uiaApproach2 (d : DocRangeEnv) (info : TextSelectionInfo) :
    Bool × TextSelectionInfo :=
  if d.textOk ∧ d.attrOk ∧ d.attrActive ∧ ¬d.text.isEmpty then
    let info := { info with text := d.text }
    let r := SetTextRangeCoordinates d.rects info
    if r.1 then (true, r.2)
    else uiaApproach2Expand d r.2
  else uiaApproach2Expand d info

/-- Third UIA approach: the LegacyIAccessible pattern bridge.  Only the
selected text is taken; no coordinates are queried, so posLevel is left
untouched. -/
def uiaApproach3 (l : LegacyEnv) (info : TextSelectionInfo) :
    Bool × TextSelectionInfo :=
  if l.patternOk ∧ l.accOk then
    match l.sel with
    | AccSel.empty => (false, info)
    | AccSel.bstr s =>
      let info := { info with text := s }
      (¬info.text.isEmpty, info)
    | AccSel.dispatch name value =>
      match name with
      | some s =>
        let info := { info with text := s }
        (¬info.text.isEmpty, info)
      | none =>
        match value with
        | some s =>
          let info := { info with text := s }
          (¬info.text.isEmpty, info)
        | none => (false, info)
    | AccSel.arr first =>
      match first with
      | some s =>
        let info := { info with text := s }
        (¬info.text.isEmpty, info)
      | none => (false, info)
  else (false, info)

/-- SelectionHook::GetTextViaUIAutomation: the three approaches in
order, stopping at the first success.  uiaAvail models pUIAutomation
being non-null. -/
def GetTextViaUIAutomation (uiaAvail hwndValid : Bool) (env : UiaEnv)
    (info : TextSelectionInfo) : UiaResult :=
  if ¬uiaAvail ∨ ¬hwndValid then ⟨false, info, none⟩
  else if ¬env.elementOk then ⟨false, info, none⟩
  else if ¬env.focusedOk then ⟨false, info, none⟩
  else
    let r1 :=
      if env.patternOk ∧ env.selRangesOk then uiaApproach1 env.selRanges info
      else (false, info)
    if r1.1 then ⟨true, r1.2, some UiaApproachTag.selRange⟩
    else
      let r2 :=
        if env.patternOk ∧ env.docOk then uiaApproach2 env.doc r1.2
        else (false, r1.2)
      if r2.1 then ⟨true, r2.2, some UiaApproachTag.docRange⟩
      else
        let r3 := uiaApproach3 env.legacy r2.2
        if r3.1 then ⟨true, r3.2, some UiaApproachTag.legacyBridge⟩
        else ⟨false, r3.2, none⟩

/-- Environment of one GetTextViaFocusedControl invocation: the focused
control after the AttachThreadInput dance, the EM_GETSEL out-parameters,
and the outcomes of EM_GETSELTEXT, WM_GETTEXT and GetWindowRect on the
focused control. -/
structure FocusEnv where
  focusedControl : Bool
  selStart : Nat
  selEnd : Nat
  richSelText : Option Str
  fullText : Option Str
  ctrlRect : Option Rect

/-- SelectionHook::GetTextViaFocusedControl.  selLength is the DWORD
difference selEnd - selStart; richSelText is some s when EM_GETSELTEXT
returned a positive length; fullText is the WM_GETTEXT buffer.  The
control rectangle is copied into the four corner points when available,
but posLevel is never assigned.  Returns true iff selectionInfo.text is
non-empty on exit. -/
def GetTextViaFocusedControl (hwndValid : Bool) (env : FocusEnv)
    (info : TextSelectionInfo) : Bool × TextSelectionInfo :=
  if ¬hwndValid then (false, info)
  else if ¬env.focusedControl then (false, info)
  else
    let info :=
      if env.selStart ≠ env.selEnd then
        let selLength := dwSub env.selEnd env.selStart
        if 0 < selLength ∧ selLength < 8192 then
          match env.richSelText with
          | some s => { info with text := s }
          | none =>
            match env.fullText with
            | some full =>
              if 0 < full.length ∧ env.selStart < full.length then
                let selEnd2 := min env.selEnd full.length
                { info with
                  text := (full.drop env.selStart).take (selEnd2 - env.selStart) }
              else info
            | none => info
        else info
      else info
    let info :=
      match env.ctrlRect with
      | some rect =>
        { info with
          startTop := ⟨rect.left, rect.top⟩
          startBottom := ⟨rect.left, rect.bottom⟩
          endTop := ⟨rect.right, rect.top⟩
          endBottom := ⟨rect.right, rect.bottom⟩ }
      | none => info
    (¬info.text.isEmpty, info)

/-- The global filter members of SelectionHook. -/
structure GlobalFilterCfg where
  global_filter_mode : FilterMode
  global_filter_list : List Str
deriving DecidableEq

/-- The process-wide mutable extraction state: the is_processing
re-entrancy flag. -/
structure HookState where
  is_processing : Bool
deriving DecidableEq

/-- Environment of one GetSelectedText invocation: the outcome of
GetProgramNameFromHwnd and the four extraction strategies.  Each
strategy field stands for the corresponding member function applied to
the ambient OS state of this invocation, as a transformer of the
selectionInfo carrying its success Bool; clipGate is the value of
ShouldProcessViaClipboard for this invocation. -/
structure ChainEnv where
  programName : Option Str
  uiaAvailable : Bool
  uia : TextSelectionInfo → Bool × TextSelectionInfo
  focus : TextSelectionInfo → Bool × TextSelectionInfo
  acc : TextSelectionInfo → Bool × TextSelectionInfo
  clipGate : Bool
  clip : TextSelectionInfo → Bool × TextSelectionInfo

/-- Result of one GetSelectedText invocation. -/
structure GSTResult where
  ok : Bool
  info : TextSelectionInfo
  state : HookState
deriving DecidableEq

/-- The region of SelectionHook::GetSelectedText between the store(true)
and whichever exit path runs: program-name resolution, global filtering,
then the four strategies in order, the clipboard one gated by
ShouldProcessViaClipboard. -/
def getSelectedTextChain (cfg : GlobalFilterCfg) (env : ChainEnv)
    (info0 : TextSelectionInfo) : Bool × TextSelectionInfo :=
  let info := info0.clear
  let nameRes :=
    match env.programName with
    | some name => (true, { info with programName := name })
    | none => (false, { info with programName := [] })
  let nameOk := nameRes.1
  let info := nameRes.2
  let pass : Bool :=
    if ¬nameOk then
      cfg.global_filter_mode ≠ FilterMode.IncludeList
    else if cfg.global_filter_mode ≠ FilterMode.Default then
      let isIn := IsInFilterList info.programName cfg.global_filter_list
      ¬((cfg.global_filter_mode = FilterMode.IncludeList ∧ ¬isIn) ∨
        (cfg.global_filter_mode = FilterMode.ExcludeList ∧ isIn))
    else true
  if ¬pass then (false, info)
  else
    let r1 := if env.uiaAvailable then env.uia info else (false, info)
    if r1.1 then
      (true, { r1.2 with method := SelectionMethod.UIA })
    else
      let r2 := env.focus r1.2
      if r2.1 then
        (true, { r2.2 with method := SelectionMethod.FocusControl })
      else
        let r3 := env.acc r2.2
        if r3.1 then
          (true, { r3.2 with method := SelectionMethod.Accessible })
        else
          let r4 := if env.clipGate then env.clip r3.2 else (false, r3.2)
          if env.clipGate ∧ r4.1 then
            (true, { r4.2 with method := SelectionMethod.Clipboard })
          else
            (false, r4.2)

/-- SelectionHook::GetSelectedText: re-entrancy guard, then the chain
region.  In the source every return statement of the chain region is
immediately preceded by is_processing.store(false); the wrapper states
this by re-establishing is_processing = false whenever the chain region
completed. -/
def GetSelectedText (cfg : GlobalFilterCfg) (env : ChainEnv) (hwndValid : Bool)
    (info0 : TextSelectionInfo) (st : HookState) : GSTResult :=
  if ¬hwndValid then ⟨false, info0, st⟩
  else if st.is_processing then ⟨false, info0, st⟩
  else
    let r := getSelectedTextChain cfg env info0
    ⟨r.1, r.2, ⟨false⟩⟩

/-- The JavaScript object built by
SelectionHook::CreateSelectionResultObject, one field per property
set on it. -/
structure SelectionResultObject where
  text : Str
  programName : Str
  method : Int
  posLevel : Int
  startTopX : Int
  startTopY : Int
  endBottomX : Int
  endBottomY : Int
  startBottomX : Int
  startBottomY : Int
  endTopX : Int
  endTopY : Int
  mouseStartX : Int
  mouseStartY : Int
  mouseEndX : Int
  mouseEndY : Int
deriving DecidableEq

/-- SelectionHook::CreateSelectionResultObject. -/
def CreateSelectionResultObject (info : TextSelectionInfo) :
    SelectionResultObject :=
  { text := info.text
    programName := info.programName
    method := info.method.toInt
    posLevel := info.posLevel.toInt
    startTopX := info.startTop.x
    startTopY := info.startTop.y
    endBottomX := info.endBottom.x
    endBottomY := info.endBottom.y
    startBottomX := info.startBottom.x
    startBottomY := info.startBottom.y
    endTopX := info.endTop.x
    endTopY := info.endTop.y
    mouseStartX := info.mousePosStart.x
    mouseStartY := info.mousePosStart.y
    mouseEndX := info.mousePosEnd.x
    mouseEndY := info.mousePosEnd.y }

/-- The target window GetCurrentSelection extracts from: the window
under the mouse cursor, as resolved by GetWindowUnderMouse (the
GetForegroundWindow call in the source is commented out there). -/
def getCurrentSelectionTargetWindow (cursorPosOk : Bool)
    (windowFromPoint foregroundWindow : Option Wnd) : Option Wnd :=
  GetWindowUnderMouse cursorPosOk windowFromPoint foregroundWindow

/-- The target window gesture-triggered extraction uses: ProcessMouseEvent
always calls GetForegroundWindow() before GetSelectedText. -/
def gestureExtractionTargetWindow (foregroundWindow : Option Wnd) : Option Wnd :=
  foregroundWindow

/-- SelectionHook::GetCurrentSelection: refuse when the cached
system-state check refuses, resolve the target window with
GetWindowUnderMouse, run GetSelectedText, and return the result object
when the text is non-empty after trimming. -/
def GetCurrentSelection (shouldProcess cursorPosOk : Bool)
    (windowFromPoint foregroundWindow : Option Wnd)
    (cfg : GlobalFilterCfg) (env : ChainEnv) (st : HookState) :
    Option SelectionResultObject × HookState :=
  if ¬shouldProcess then (none, st)
  else
    match GetWindowUnderMouse cursorPosOk windowFromPoint foregroundWindow with
    | none => (none, st)
    | some _ =>
      let r := GetSelectedText cfg env true TextSelectionInfo.init st
      if r.ok ∧ ¬IsTrimmedEmpty r.info.text then
        (some (CreateSelectionResultObject r.info), r.state)
      else (none, r.state)

/-! Concrete instances used by the verification below. -/

/-- Gesture state after a mouse-down at (100,100) at tick 1000 over
window 7 with rectangle (0,0,800,600). -/
def stateAfterDown : GestureState :=
  processLButtonDown GestureState.init
    ⟨⟨100, 100⟩, 1000, some 7, ⟨0, 0, 800, 600⟩⟩

/-- Mouse-up at (140,100) 300 ms later over the same, unmoved window
(the drag scenario of the specification). -/
def upEnvDrag : MouseUpEnv :=
  { currentPos := ⟨140, 100⟩, currentTime := 1300, passiveMode := false
    doubleClickTime := 500, windowUnderMouse := some 7
    windowRectAtUp := ⟨0, 0, 800, 600⟩, shiftPressed := false
    ctrlPressed := false, altPressed := false }

/-- Gesture state during the second click of a double click at (50,50):
the first click was valid, its mouse-up was at tick 1100, the second
mouse-down at tick 1200. -/
def stateSecondClick : GestureState :=
  { lastLastMouseUpPos := ⟨0, 0⟩, lastMouseUpPos := ⟨50, 50⟩
    lastMouseUpTime := 1100, lastMouseDownPos := ⟨50, 50⟩
    lastMouseDownTime := 1200, isLastValidClick := true
    lastWindowHandler := some 7, lastWindowRect := ⟨0, 0, 800, 600⟩ }

/-- Mouse-up of the second click, 50 ms after its mouse-down. -/
def upEnvSecondClick : MouseUpEnv :=
  { upEnvDrag with currentPos := ⟨50, 50⟩, currentTime := 1250 }

/-- Clipboard gate configured as in the specification scenario:
clipboard enabled, IncludeList mode with the single entry acrobat. -/
def gateCfgAcrobat : ClipboardGateCfg :=
  { is_enabled_clipboard := true
    clipboard_filter_mode := FilterMode.IncludeList
    clipboard_filter_list := ["acrobat".toList]
    ftl_exclude_clipboard_cursor_detect := [] }

/-- Gate environment of a user-triggered call (the cursor heuristic is
bypassed), with the initial control type. -/
def gateEnvUser : ClipboardGateEnv :=
  { is_triggered_by_user := true
    mouse_up_cursor := CursorKind.beam
    uia_control_type := UIA_WindowControlTypeId }

/-- A UIA environment whose only datum is one selection range with
non-empty text and a single degenerate bounding rectangle of width 1
(the caret-only shape SetTextRangeCoordinates discards). -/
def uiaEnvInvalidRectOnly : UiaEnv :=
  { elementOk := true, focusedOk := true, controlTypeOk := true
    controlType := UIA_DocumentControlTypeId, patternOk := true
    selRangesOk := true
    selRanges := [⟨true, "hello".toList, some [⟨10, 10, 1, 20⟩]⟩]
    docOk := false
    doc := ⟨false, false, false, [], none, false, false, [], false, false, none⟩
    legacy := ⟨false, false, AccSel.empty⟩ }

/-- A UIA environment in which only the legacy-accessible bridge yields
text (as a plain BSTR selection). -/
def uiaEnvLegacyText : UiaEnv :=
  { uiaEnvInvalidRectOnly with
    selRangesOk := false
    legacy := ⟨true, true, AccSel.bstr "hello".toList⟩ }

/-- A UIA environment with one selection range carrying the valid
rectangle (10,10,5,20) of the specification scenario. -/
def uiaEnvValidRect : UiaEnv :=
  { uiaEnvInvalidRectOnly with
    selRanges := [⟨true, "hello".toList, some [⟨10, 10, 5, 20⟩]⟩] }

/-- A focused control at rectangle (10,20,300,400) with a rich-edit
selection of the text abc. -/
def focusEnvRect : FocusEnv :=
  { focusedControl := true, selStart := 2, selEnd := 5
    richSelText := some "abc".toList, fullText := none
    ctrlRect := some ⟨10, 20, 300, 400⟩ }

/-- A chain environment where UI Automation fails and the focused
control supplies the text, as in legacy edit controls. -/
def chainEnvFocusRect : ChainEnv :=
  { programName := some "legacyapp.exe".toList
    uiaAvailable := true
    uia := fun i => (false, i)
    focus := fun i => GetTextViaFocusedControl true focusEnvRect i
    acc := fun i => (false, i)
    clipGate := false
    clip := fun i => (false, i) }

/-- A chain environment where the first strategy succeeds with the text
hi. -/
def chainEnvUiaHi : ChainEnv :=
  { chainEnvFocusRect with
    programName := some "notepad.exe".toList
    uia := fun i => (true, { i with text := "hi".toList }) }

/-- Clipboard environment of a non-user-triggered extraction: no key
held during the pre-check, no prior sequence change, clipboard opens,
entry content old, and Ctrl held at the interrupt re-check before the
Ctrl+Insert keystroke. -/
def clipEnvInterruptedAfterSnapshot : ClipEnv :=
  { clip0 := "old".toList
    preSeqChanged := fun _ => false
    preCopied := []
    preCtrl := fun _ => false
    preC := fun _ => false
    preX := fun _ => false
    preV := fun _ => false
    openOk := true
    delayReadList := []
    ctrlAtInsertCheck := true
    insertSeqChangeAt := none
    insertCopied := []
    ctrlAtCtrlCCheck := false
    ctrlCSeqChangeAt := none
    ctrlCCopied := []
    ctrlAtAfterCopyCheck := false }

/-- Clipboard environment where Ctrl is held at pre-check poll 0 and
released from poll 1 on, with no sequence change. -/
def clipEnvCtrlHeldFirstPoll : ClipEnv :=
  { clipEnvInterruptedAfterSnapshot with
    ctrlAtInsertCheck := false
    preCtrl := fun i => i = 0 }

/-- Clipboard environment where the clipboard sequence number has
already changed when the pre-check starts (the user copied hi). -/
def clipEnvSeqChangedInPreCheck : ClipEnv :=
  { clipEnvInterruptedAfterSnapshot with
    ctrlAtInsertCheck := false
    preSeqChanged := fun _ => true
    preCopied := "hi".toList }

/-- Clipboard environment of a successful Ctrl+C extraction: the
Ctrl+Insert attempt times out, Ctrl+C produces sel at poll 3, no
interruption, entry content old. -/
def clipEnvCtrlCSuccess : ClipEnv :=
  { clipEnvInterruptedAfterSnapshot with
    ctrlAtInsertCheck := false
    ctrlCSeqChangeAt := some 3
    ctrlCCopied := "sel".toList }

/-! Helper lemmas shared by the claim theorems below. -/

/-- The shift-click override at the end of the classifier yields Drag
exactly when the prior classification was already Drag. -/
theorem shiftOverride_eq_drag_iff (c : Prop) [Decidable c] (d : SelectionDetectType) :
    ((if d = SelectionDetectType.None ∧ c then SelectionDetectType.ShiftClick else d)
      = SelectionDetectType.Drag) ↔ d = SelectionDetectType.Drag := by
  split <;> simp_all

/-- The shift-click override yields DoubleClick exactly when the prior
classification was already DoubleClick. -/
theorem shiftOverride_eq_dbl_iff (c : Prop) [Decidable c] (d : SelectionDetectType) :
    ((if d = SelectionDetectType.None ∧ c then SelectionDetectType.ShiftClick else d)
      = SelectionDetectType.DoubleClick) ↔ d = SelectionDetectType.DoubleClick := by
  split <;> simp_all

/-- Necessary conditions for a DoubleClick classification: the previous
click was valid, the current click is valid, the previous-up-to-current-
down gap is within the double-click interval, and the two up positions
are within the 3-px threshold. -/
theorem processLButtonUp_doubleClick_necessary (st : GestureState) (e : MouseUpEnv)
    (h : (processLButtonUp st e).1 = SelectionDetectType.DoubleClick) :
    st.isLastValidClick = true ∧
    dwSub e.currentTime st.lastMouseDownTime ≤ e.doubleClickTime ∧
    dwSub st.lastMouseDownTime st.lastMouseUpTime ≤ e.doubleClickTime ∧
    dist2 e.currentPos st.lastMouseUpPos ≤ DOUBLE_CLICK_MAX_DISTANCE_SQ := by
  by_cases hp : e.passiveMode = true
  · simp [processLButtonUp, hp] at h
  · rw [Bool.not_eq_true] at hp
    simp only [processLButtonUp, hp, Bool.false_eq_true, if_false, reduceIte] at h
    rw [shiftOverride_eq_dbl_iff] at h
    split at h <;> (try split at h) <;> (try split at h) <;>
      (try split at h) <;> simp_all

/-- towlower is idempotent: lowering an already lowered character is the
identity. -/
theorem towlower_towlower (c : Char) : towlower (towlower c) = towlower c := by
  unfold towlower
  by_cases h : 65 ≤ c.toNat ∧ c.toNat ≤ 90
  · rw [if_pos h]
    have hv : (c.toNat + 32).isValidChar := Or.inl (by omega)
    have ht : (Char.ofNat (c.toNat + 32)).toNat = c.toNat + 32 := by
      rw [Char.ofNat, dif_pos hv]; rfl
    rw [if_neg]
    rw [ht]
    omega
  · rw [if_neg h, if_neg h]

/-- Lowering a string twice equals lowering it once. -/
theorem map_towlower_idem (s : Str) :
    (s.map towlower).map towlower = s.map towlower := by
  induction s with
  | nil => rfl
  | cons c t ih => simp [ih, towlower_towlower]

/-- IsInFilterList is case-insensitive in the program name. -/
theorem IsInFilterList_map_towlower (name : Str) (list : List Str) :
    IsInFilterList (name.map towlower) list = IsInFilterList name list := by
  unfold IsInFilterList
  rw [map_towlower_idem]

/-- IsInFilterList is substring-based: it holds exactly when the list is
non-empty and some entry occurs inside the lowercased program name. -/
theorem IsInFilterList_iff (name : Str) (list : List Str) :
    IsInFilterList name list = true ↔
      list ≠ [] ∧ ∃ e ∈ list, hasSub (name.map towlower) e = true := by
  unfold IsInFilterList
  by_cases h : list.isEmpty <;>
    simp_all [List.isEmpty_iff, List.any_eq_true]

/-- A successful SetTextRangeCoordinates stamps posLevel Full. -/
theorem SetTextRangeCoordinates_true_posLevel (rects : Option (List QRect))
    (info : TextSelectionInfo)
    (h : (SetTextRangeCoordinates rects info).1 = true) :
    (SetTextRangeCoordinates rects info).2.posLevel = SelectionPositionLevel.Full := by
  unfold SetTextRangeCoordinates at h ⊢
  cases rects with
  | none => simp at h
  | some rs => split at h <;> simp_all
    <;> split <;> simp_all

/-- A failed SetTextRangeCoordinates leaves selectionInfo unchanged. -/
theorem SetTextRangeCoordinates_false_eq (rects : Option (List QRect))
    (info : TextSelectionInfo)
    (h : (SetTextRangeCoordinates rects info).1 = false) :
    (SetTextRangeCoordinates rects info).2 = info := by
  unfold SetTextRangeCoordinates at h ⊢
  cases rects with
  | none => rfl
  | some rs => split at h <;> simp_all
    <;> split <;> simp_all

/-- The first UIA approach stamps posLevel Full when it succeeds and
preserves posLevel when it fails. -/
theorem uiaApproach1_posLevel (ranges : List UiaRange) (info : TextSelectionInfo) :
    ((uiaApproach1 ranges info).1 = true →
      (uiaApproach1 ranges info).2.posLevel = SelectionPositionLevel.Full) ∧
    ((uiaApproach1 ranges info).1 = false →
      (uiaApproach1 ranges info).2.posLevel = info.posLevel) := by
  induction ranges generalizing info with
  | nil => simp [uiaApproach1]
  | cons r rest ih =>
    unfold uiaApproach1
    by_cases htk : r.textOk = true
    · simp only [htk, reduceIte]
      by_cases hne : List.isEmpty r.text = true
      · simp only [hne, not_true_eq_false, Bool.false_eq_true, reduceIte]
        exact ih _
      · simp only [hne, not_false_eq_true, Bool.not_eq_true, reduceIte]
        by_cases hs :
            (SetTextRangeCoordinates r.rects { info with text := r.text }).1 = true
        · simp only [hs, reduceIte]
          exact ⟨fun _ => SetTextRangeCoordinates_true_posLevel _ _ hs,
            fun h => by simp at h⟩
        · rw [Bool.not_eq_true] at hs
          simp only [hs, Bool.false_eq_true, reduceIte]
          refine ⟨fun h => (ih _).1 h, fun h => ?_⟩
          rw [(ih _).2 h, SetTextRangeCoordinates_false_eq _ _ hs]
    · rw [Bool.not_eq_true] at htk
      simp only [htk, Bool.false_eq_true, reduceIte]
      exact ih _

/-- The expand sub-branch of the second UIA approach stamps posLevel
Full when it succeeds and preserves posLevel when it fails. -/
theorem uiaApproach2Expand_posLevel (d : DocRangeEnv) (info : TextSelectionInfo) :
    ((uiaApproach2Expand d info).1 = true →
      (uiaApproach2Expand d info).2.posLevel = SelectionPositionLevel.Full) ∧
    ((uiaApproach2Expand d info).1 = false →
      (uiaApproach2Expand d info).2.posLevel = info.posLevel) := by
  unfold uiaApproach2Expand
  split
  · split
    · exact ⟨fun h => SetTextRangeCoordinates_true_posLevel _ _ h,
        fun h => by rw [SetTextRangeCoordinates_false_eq _ _ h]⟩
    · exact ⟨fun h => by simp at h, fun _ => rfl⟩
  · exact ⟨fun h => by simp at h, fun _ => rfl⟩

/-- The second UIA approach stamps posLevel Full when it succeeds and
preserves posLevel when it fails. -/
theorem uiaApproach2_posLevel (d : DocRangeEnv) (info : TextSelectionInfo) :
    ((uiaApproach2 d info).1 = true →
      (uiaApproach2 d info).2.posLevel = SelectionPositionLevel.Full) ∧
    ((uiaApproach2 d info).1 = false →
      (uiaApproach2 d info).2.posLevel = info.posLevel) := by
  unfold uiaApproach2
  split
  · by_cases hs :
        (SetTextRangeCoordinates d.rects { info with text := d.text }).1 = true
    · simp only [hs, reduceIte]
      exact ⟨fun _ => SetTextRangeCoordinates_true_posLevel _ _ hs,
        fun h => by simp at h⟩
    · rw [Bool.not_eq_true] at hs
      simp only [hs, Bool.false_eq_true, reduceIte]
      refine ⟨fun h => (uiaApproach2Expand_posLevel _ _).1 h, fun h => ?_⟩
      rw [(uiaApproach2Expand_posLevel _ _).2 h,
        SetTextRangeCoordinates_false_eq _ _ hs]
  · exact uiaApproach2Expand_posLevel _ _

/-- The legacy-accessible bridge never touches posLevel. -/
theorem uiaApproach3_posLevel (l : LegacyEnv) (info : TextSelectionInfo) :
    (uiaApproach3 l info).2.posLevel = info.posLevel := by
  unfold uiaApproach3
  split
  · cases l.sel with
    | empty => rfl
    | bstr s => rfl
    | dispatch name value =>
      cases name with
      | some s => rfl
      | none =>
        cases value with
        | some s => rfl
        | none => rfl
    | arr first =>
      cases first with
      | some s => rfl
      | none => rfl
  · rfl

/-- Position-level accounting for GetTextViaUIAutomation: a success via
either text-pattern approach carries posLevel Full, and a success via
the legacy bridge leaves the incoming posLevel untouched. -/
theorem GetTextViaUIAutomation_posLevel (ua hv : Bool) (env : UiaEnv)
    (info : TextSelectionInfo) :
    (((GetTextViaUIAutomation ua hv env info).via = some UiaApproachTag.selRange ∨
      (GetTextViaUIAutomation ua hv env info).via = some UiaApproachTag.docRange) →
      (GetTextViaUIAutomation ua hv env info).info.posLevel = SelectionPositionLevel.Full) ∧
    ((GetTextViaUIAutomation ua hv env info).via = some UiaApproachTag.legacyBridge →
      (GetTextViaUIAutomation ua hv env info).info.posLevel = info.posLevel) := by
  unfold GetTextViaUIAutomation
  split
  · simp
  · split
    · simp
    · split
      · simp
      · by_cases hpat : env.patternOk = true ∧ env.selRangesOk = true
        · rw [if_pos hpat]
          by_cases h1 : (uiaApproach1 env.selRanges info).1 = true
          · simp only [h1, reduceIte]
            exact ⟨fun _ => (uiaApproach1_posLevel _ _).1 h1, fun h => by simp at h⟩
          · rw [Bool.not_eq_true] at h1
            simp only [h1, Bool.false_eq_true, reduceIte]
            have hpre := (uiaApproach1_posLevel env.selRanges info).2 h1
            by_cases hpat2 : env.patternOk = true ∧ env.docOk = true
            · rw [if_pos hpat2]
              by_cases h2 : (uiaApproach2 env.doc (uiaApproach1 env.selRanges info).2).1 = true
              · simp only [h2, reduceIte]
                exact ⟨fun _ => (uiaApproach2_posLevel _ _).1 h2, fun h => by simp at h⟩
              · rw [Bool.not_eq_true] at h2
                simp only [h2, Bool.false_eq_true, reduceIte]
                have hpre2 := (uiaApproach2_posLevel env.doc _).2 h2
                by_cases h3 : (uiaApproach3 env.legacy
                    (uiaApproach2 env.doc (uiaApproach1 env.selRanges info).2).2).1 = true
                · simp only [h3, reduceIte]
                  refine ⟨fun h => by simp at h, fun _ => ?_⟩
                  rw [uiaApproach3_posLevel, hpre2, hpre]
                · rw [Bool.not_eq_true] at h3
                  simp only [h3, Bool.false_eq_true, reduceIte]
                  simp
            · rw [if_neg hpat2]
              simp only [Bool.false_eq_true, reduceIte]
              by_cases h3 : (uiaApproach3 env.legacy
                  (uiaApproach1 env.selRanges info).2).1 = true
              · simp only [h3, reduceIte]
                refine ⟨fun h => by simp at h, fun _ => ?_⟩
                rw [uiaApproach3_posLevel, hpre]
              · rw [Bool.not_eq_true] at h3
                simp only [h3, Bool.false_eq_true, reduceIte]
                simp
        · rw [if_neg hpat]
          simp only [Bool.false_eq_true, reduceIte]
          by_cases hpat2 : env.patternOk = true ∧ env.docOk = true
          · rw [if_pos hpat2]
            by_cases h2 : (uiaApproach2 env.doc info).1 = true
            · simp only [h2, reduceIte]
              exact ⟨fun _ => (uiaApproach2_posLevel _ _).1 h2, fun h => by simp at h⟩
            · rw [Bool.not_eq_true] at h2
              simp only [h2, Bool.false_eq_true, reduceIte]
              have hpre2 := (uiaApproach2_posLevel env.doc _).2 h2
              by_cases h3 : (uiaApproach3 env.legacy (uiaApproach2 env.doc info).2).1 = true
              · simp only [h3, reduceIte]
                refine ⟨fun h => by simp at h, fun _ => ?_⟩
                rw [uiaApproach3_posLevel, hpre2]
              · rw [Bool.not_eq_true] at h3
                simp only [h3, Bool.false_eq_true, reduceIte]
                simp
          · rw [if_neg hpat2]
            simp only [Bool.false_eq_true, reduceIte]
            by_cases h3 : (uiaApproach3 env.legacy info).1 = true
            · simp only [h3, reduceIte]
              refine ⟨fun h => by simp at h, fun _ => ?_⟩
              rw [uiaApproach3_posLevel]
            · rw [Bool.not_eq_true] at h3
              simp only [h3, Bool.false_eq_true, reduceIte]
              simp

/-- The Ctrl+C phase always reports the snapshot it was handed. -/
theorem ctrlCPhase_fields (env : ClipEnv) (trig : Bool) (snapshot : Str)
    (d : Bool) (keys : List CopyKeyType) :
    (ctrlCPhase env trig snapshot d keys).snapshotTaken = true ∧
    (ctrlCPhase env trig snapshot d keys).snapshot = snapshot := by
  unfold ctrlCPhase
  split
  · exact ⟨rfl, rfl⟩
  · split
    · split
      · split
        · exact ⟨rfl, rfl⟩
        · exact ⟨rfl, rfl⟩
      · exact ⟨rfl, rfl⟩
    · exact ⟨rfl, rfl⟩

/-- The Ctrl+C phase restores a non-empty snapshot on every exit other
than its two interruption aborts. -/
theorem ctrlCPhase_restores (env : ClipEnv) (trig : Bool) (snapshot : Str)
    (d : Bool) (keys : List CopyKeyType) :
    (ctrlCPhase env trig snapshot d keys).exit ≠ ClipExit.interruptCtrlC →
    (ctrlCPhase env trig snapshot d keys).exit ≠ ClipExit.interruptAfterCopy →
    snapshot ≠ [] →
    (ctrlCPhase env trig snapshot d keys).clip = snapshot := by
  unfold ctrlCPhase
  split
  · intro h1 _ _
    exact absurd rfl h1
  · split
    · split
      · split
        · intro _ h2 _
          exact absurd rfl h2
        · intro _ _ hne
          simp [List.isEmpty_iff, hne]
      · intro _ _ hne
        simp [List.isEmpty_iff, hne]
    · intro _ _ hne
      simp [List.isEmpty_iff, hne]

/-! Claim theorems. -/

/-- C1 counterexample: in a non-user-triggered clipboard extraction that
took a non-empty snapshot (old) and then hit the interruption re-check
before the Ctrl+Insert keystroke (Ctrl held), the function returns with
the clipboard left empty rather than restored to the snapshot, so the
claim that every exit path restores the snapshot is false at this
input. -/
theorem clipboard_interrupt_abort_leaves_clipboard_unrestored :
    (GetTextViaClipboard clipEnvInterruptedAfterSnapshot false true
      TextSelectionInfo.init).snapshotTaken = true ∧
    (GetTextViaClipboard clipEnvInterruptedAfterSnapshot false true
      TextSelectionInfo.init).snapshot = "old".toList ∧
    (GetTextViaClipboard clipEnvInterruptedAfterSnapshot false true
      TextSelectionInfo.init).exit = ClipExit.interruptInsert ∧
    (GetTextViaClipboard clipEnvInterruptedAfterSnapshot false true
      TextSelectionInfo.init).clip = [] ∧
    (GetTextViaClipboard clipEnvInterruptedAfterSnapshot false true
      TextSelectionInfo.init).clip ≠
      (GetTextViaClipboard clipEnvInterruptedAfterSnapshot false true
        TextSelectionInfo.init).snapshot :=
  ⟨by decide, by decide, by decide, by decide, by decide⟩

/-- C1 (amended): GetTextViaClipboard restores a non-empty pre-extraction
snapshot on every exit path that took the snapshot, except the three
abort-by-interruption exits (Ctrl held at a re-check), which return
without restoring. -/
theorem clipboard_restored_on_noninterrupt_exits (env : ClipEnv)
    (trig hv : Bool) (info : TextSelectionInfo) :
    (GetTextViaClipboard env trig hv info).snapshotTaken = true →
    (GetTextViaClipboard env trig hv info).snapshot ≠ [] →
    (GetTextViaClipboard env trig hv info).exit ≠ ClipExit.interruptInsert →
    (GetTextViaClipboard env trig hv info).exit ≠ ClipExit.interruptCtrlC →
    (GetTextViaClipboard env trig hv info).exit ≠ ClipExit.interruptAfterCopy →
    (GetTextViaClipboard env trig hv info).clip =
      (GetTextViaClipboard env trig hv info).snapshot := by
  unfold GetTextViaClipboard
  split
  · simp
  · generalize (if ¬trig = true then preCheckLoop env trig false false false false 5 0
      else PreCheckOutcome.proceed) = pre
    cases pre with
    | direct ok t => simp
    | abstain => simp
    | proceed =>
      dsimp only
      split
      · simp
      · split
        · split
          · intro _ _ h3 _ _
            exact absurd rfl h3
          · split
            · split
              · intro _ hne _ _ _
                simp_all [List.isEmpty_iff]
              · intro _ hne _ h4 h5
                rw [(ctrlCPhase_fields env trig env.clip0 _ _).2] at hne ⊢
                exact ctrlCPhase_restores _ _ _ _ _ h4 h5 hne
            · intro _ hne _ h4 h5
              rw [(ctrlCPhase_fields env trig env.clip0 _ _).2] at hne ⊢
              exact ctrlCPhase_restores _ _ _ _ _ h4 h5 hne
        · intro _ hne _ h4 h5
          rw [(ctrlCPhase_fields env trig env.clip0 _ _).2] at hne ⊢
          exact ctrlCPhase_restores _ _ _ _ _ h4 h5 hne

/-- C1 witness: a successful Ctrl+C extraction with non-empty snapshot
old has its clipboard restored to the snapshot. -/
theorem clipboard_restored_on_noninterrupt_exits_witness :
    (GetTextViaClipboard clipEnvCtrlCSuccess false true
      TextSelectionInfo.init).clip =
      (GetTextViaClipboard clipEnvCtrlCSuccess false true
        TextSelectionInfo.init).snapshot :=
  clipboard_restored_on_noninterrupt_exits clipEnvCtrlCSuccess false true
    TextSelectionInfo.init (by decide) (by decide) (by decide) (by decide)
    (by decide)

/-- C2: GetSelectedText is not reentrant: a call made while
is_processing is set returns failure with selectionInfo and state
untouched; and a completed invocation (is_processing initially clear)
leaves is_processing cleared on every exit path. -/
theorem getSelectedText_not_reentrant_and_clears_flag (cfg : GlobalFilterCfg)
    (env : ChainEnv) (hwndValid : Bool) (info0 : TextSelectionInfo)
    (st : HookState) :
    (st.is_processing = true →
      GetSelectedText cfg env hwndValid info0 st = ⟨false, info0, st⟩) ∧
    (st.is_processing = false →
      (GetSelectedText cfg env hwndValid info0 st).state.is_processing = false) := by
  constructor
  · intro h
    unfold GetSelectedText
    by_cases hv : hwndValid = true
    · simp [hv, h]
    · simp [Bool.not_eq_true] at hv
      simp [hv]
  · intro h
    by_cases hv : hwndValid = true
    · unfold GetSelectedText
      rw [if_neg (by simp [hv]), if_neg (by simp [h])]
    · unfold GetSelectedText
      rw [if_pos (by simp [hv])]
      simpa using h

/-- C2 witness: with the first strategy succeeding, a call on a busy
state returns failure unchanged, and a call on an idle state ends with
the flag cleared. -/
theorem getSelectedText_not_reentrant_and_clears_flag_witness :
    GetSelectedText ⟨FilterMode.Default, []⟩ chainEnvUiaHi true
      TextSelectionInfo.init ⟨true⟩ = ⟨false, TextSelectionInfo.init, ⟨true⟩⟩ ∧
    (GetSelectedText ⟨FilterMode.Default, []⟩ chainEnvUiaHi true
      TextSelectionInfo.init ⟨false⟩).state.is_processing = false :=
  ⟨(getSelectedText_not_reentrant_and_clears_flag ⟨FilterMode.Default, []⟩
      chainEnvUiaHi true TextSelectionInfo.init ⟨true⟩).1 rfl,
   (getSelectedText_not_reentrant_and_clears_flag ⟨FilterMode.Default, []⟩
      chainEnvUiaHi true TextSelectionInfo.init ⟨false⟩).2 rfl⟩

/-- C3: outside passive mode, a primary-button mouse-up classifies as a
drag gesture iff the squared distance from the mouse-down position is at
least 64 (Euclidean distance at least 8 px), the elapsed DWORD time does
not exceed the 8000 ms drag timeout, the window under the cursor at
mouse-up is the same non-null window recorded at mouse-down, and that
window's rectangle has not moved by more than 2 px on any edge. -/
theorem drag_classified_iff (st : GestureState) (e : MouseUpEnv)
    (hp : e.passiveMode = false) :
    (processLButtonUp st e).1 = SelectionDetectType.Drag ↔
      (dist2 e.currentPos st.lastMouseDownPos ≥ MIN_DRAG_DISTANCE_SQ ∧
       dwSub e.currentTime st.lastMouseDownTime ≤ MAX_DRAG_TIME_MS ∧
       (∃ w, e.windowUnderMouse = some w ∧ st.lastWindowHandler = some w) ∧
       HasWindowMoved e.windowRectAtUp st.lastWindowRect = false) := by
  simp only [processLButtonUp, hp, Bool.false_eq_true, if_false, reduceIte]
  rw [shiftOverride_eq_drag_iff]
  by_cases ht : dwSub e.currentTime st.lastMouseDownTime > MAX_DRAG_TIME_MS
  · rw [if_pos ht]
    constructor
    · intro h; exact absurd h (by simp)
    · rintro ⟨_, h2, _, _⟩; omega
  · have ht2 : dwSub e.currentTime st.lastMouseDownTime ≤ MAX_DRAG_TIME_MS := by omega
    rw [if_neg ht]
    by_cases hd : dist2 e.currentPos st.lastMouseDownPos ≥ MIN_DRAG_DISTANCE_SQ
    · rw [if_pos hd]
      cases hwu : e.windowUnderMouse with
      | none => simp [hwu]
      | some w =>
        cases hlw : st.lastWindowHandler with
        | none => simp
        | some w2 =>
          by_cases heq : w = w2
          · subst heq
            by_cases hm : HasWindowMoved e.windowRectAtUp st.lastWindowRect = true
            · simp [hm, ht2, hd]
            · simp_all
          · simp [heq]
            intro w3 hw3 hlw3
            simp_all
    · rw [if_neg hd]
      constructor
      · intro h
        split at h <;> (try split at h) <;> simp_all
      · rintro ⟨h1, _⟩; exact absurd h1 hd

/-- C3 witness: the specification drag scenario — down at (100,100),
up at (140,100) 300 ms later over the same unmoved window — classifies
as a drag. -/
theorem drag_classified_iff_witness :
    (processLButtonUp stateAfterDown upEnvDrag).1 = SelectionDetectType.Drag :=
  (drag_classified_iff stateAfterDown upEnvDrag rfl).mpr (by decide)

/-- C4: a double-click classification requires the previous click to
have been valid, the current click to be valid (down-to-up within the
double-click interval), the previous-up-to-current-down gap to be within
the interval, and the two up positions to be within the 3-px threshold;
in particular, a single isolated click starting from the initial gesture
state never classifies as a double-click. -/
theorem doubleClick_requires_valid_clicks (st : GestureState) (e : MouseUpEnv) :
    ((processLButtonUp st e).1 = SelectionDetectType.DoubleClick →
      st.isLastValidClick = true ∧
      dwSub e.currentTime st.lastMouseDownTime ≤ e.doubleClickTime ∧
      dwSub st.lastMouseDownTime st.lastMouseUpTime ≤ e.doubleClickTime ∧
      dist2 e.currentPos st.lastMouseUpPos ≤ DOUBLE_CLICK_MAX_DISTANCE_SQ) ∧
    (∀ (d : MouseDownEnv) (u : MouseUpEnv),
      (processLButtonUp (processLButtonDown GestureState.init d) u).1 ≠
        SelectionDetectType.DoubleClick) := by
  constructor
  · exact processLButtonUp_doubleClick_necessary st e
  · intro d u hdc
    have hnec := processLButtonUp_doubleClick_necessary _ u hdc
    simp [processLButtonDown, GestureState.init] at hnec

/-- C4 witness: the second click of a genuine double click at (50,50)
classifies as DoubleClick, and the theorem recovers the click-validity
facts from it. -/
theorem doubleClick_requires_valid_clicks_witness :
    stateSecondClick.isLastValidClick = true ∧
    dist2 upEnvSecondClick.currentPos stateSecondClick.lastMouseUpPos ≤
      DOUBLE_CLICK_MAX_DISTANCE_SQ :=
  have h := (doubleClick_requires_valid_clicks stateSecondClick
    upEnvSecondClick).1 (by decide)
  ⟨h.1, h.2.2.2⟩

/-- C5 counterexample: a UIA environment whose selection range has
non-empty text but only a degenerate rectangle of width 1 (not a valid
rectangle) makes the whole structured-accessibility extraction fail,
rather than succeed with positionLevel None as the claim states. -/
theorem uia_text_without_valid_rect_fails_extraction :
    validRect ⟨10, 10, 1, 20⟩ = false ∧
    uiaEnvInvalidRectOnly.selRanges =
      [⟨true, "hello".toList, some [⟨10, 10, 1, 20⟩]⟩] ∧
    (GetTextViaUIAutomation true true uiaEnvInvalidRectOnly
      TextSelectionInfo.init).ok = false :=
  ⟨by decide, by decide, by decide⟩

/-- C5 (amended): in the UI Automation path, a success through either
text-pattern approach always carries positionLevel Full — absence of a
valid rectangle fails those approaches instead of yielding None — while
a success through the legacy-accessible bridge leaves positionLevel
untouched, so positionLevel None with non-empty text arises only there
(witnessed by the concrete legacy environment). -/
theorem uia_positionLevel_characterization :
    (∀ (env : UiaEnv) (info : TextSelectionInfo),
      ((GetTextViaUIAutomation true true env info).via =
          some UiaApproachTag.selRange ∨
       (GetTextViaUIAutomation true true env info).via =
          some UiaApproachTag.docRange) →
      (GetTextViaUIAutomation true true env info).info.posLevel =
        SelectionPositionLevel.Full) ∧
    (∀ (env : UiaEnv) (info : TextSelectionInfo),
      (GetTextViaUIAutomation true true env info).via =
          some UiaApproachTag.legacyBridge →
      (GetTextViaUIAutomation true true env info).info.posLevel =
        info.posLevel) ∧
    (GetTextViaUIAutomation true true uiaEnvLegacyText
      TextSelectionInfo.init).ok = true ∧
    (GetTextViaUIAutomation true true uiaEnvLegacyText
      TextSelectionInfo.init).info.posLevel = SelectionPositionLevel.None :=
  ⟨fun env info => (GetTextViaUIAutomation_posLevel true true env info).1,
   fun env info => (GetTextViaUIAutomation_posLevel true true env info).2,
   by decide, by decide⟩

/-- C5 witness: a selection range with the valid rectangle (10,10,5,20)
succeeds with positionLevel Full, and the legacy environment's success
keeps the initial positionLevel (None). -/
theorem uia_positionLevel_characterization_witness :
    (GetTextViaUIAutomation true true uiaEnvValidRect
      TextSelectionInfo.init).info.posLevel = SelectionPositionLevel.Full ∧
    (GetTextViaUIAutomation true true uiaEnvLegacyText
      TextSelectionInfo.init).info.posLevel = TextSelectionInfo.init.posLevel :=
  ⟨uia_positionLevel_characterization.1 uiaEnvValidRect TextSelectionInfo.init
      (Or.inl (by decide)),
   uia_positionLevel_characterization.2.1 uiaEnvLegacyText TextSelectionInfo.init
      (by decide)⟩

/-- C6 counterexample: with clipboard filter mode IncludeList and list
[acrobat], the eligibility check rejects the program AcroRd32.exe
(acrobat is not a substring of acrord32.exe), contradicting the claimed
scenario in which it is eligible.  The call is user-triggered so only
the list logic is exercised. -/
theorem acrord32_not_eligible_counterexample :
    ShouldProcessViaClipboard gateCfgAcrobat gateEnvUser
      "AcroRd32.exe".toList = false :=
  by decide

/-- C6 (amended): filter-list membership is case-insensitive and
substring-based — lowering the program name first does not change the
result, and membership holds exactly when some entry occurs inside the
lowercased name; with IncludeList [acrobat], notepad.exe and
AcroRd32.exe are both rejected while Acrobat.exe is eligible, and the
entry notepad matches the identifier Notepad.exe. -/
theorem filter_membership_characterization :
    (∀ (name : Str) (list : List Str),
      IsInFilterList (name.map towlower) list = IsInFilterList name list) ∧
    (∀ (name : Str) (list : List Str),
      IsInFilterList name list = true ↔
        list ≠ [] ∧ ∃ e ∈ list, hasSub (name.map towlower) e = true) ∧
    IsInFilterList "Notepad.exe".toList ["notepad".toList] = true ∧
    IsInFilterList "AcroRd32.exe".toList ["acrobat".toList] = false ∧
    ShouldProcessViaClipboard gateCfgAcrobat gateEnvUser
      "notepad.exe".toList = false ∧
    ShouldProcessViaClipboard gateCfgAcrobat gateEnvUser
      "Acrobat.exe".toList = true :=
  ⟨IsInFilterList_map_towlower, IsInFilterList_iff,
   by decide, by decide, by decide, by decide⟩

/-- C7 counterexample: with global filter mode IncludeList and an empty
list, extraction fails even though the first strategy would succeed,
whereas the same environment under Default mode succeeds — so an empty
list does not disable filtering in IncludeList mode. -/
theorem include_empty_list_blocks_extraction_counterexample :
    (GetSelectedText ⟨FilterMode.IncludeList, []⟩ chainEnvUiaHi true
      TextSelectionInfo.init ⟨false⟩).ok = false ∧
    (GetSelectedText ⟨FilterMode.Default, []⟩ chainEnvUiaHi true
      TextSelectionInfo.init ⟨false⟩).ok = true :=
  ⟨by decide, by decide⟩

/-- C7 (amended): an empty filter list matches nothing, so ExcludeList
with an empty list behaves exactly like Default (filtering disabled) for
both the global filter and the clipboard gate; but IncludeList with an
empty list rejects every program: GetSelectedText always fails and the
clipboard gate always refuses. -/
theorem empty_filter_list_semantics :
    (∀ name : Str, IsInFilterList name [] = false) ∧
    (∀ (env : ChainEnv) (hv : Bool) (info0 : TextSelectionInfo) (st : HookState),
      GetSelectedText ⟨FilterMode.ExcludeList, []⟩ env hv info0 st =
        GetSelectedText ⟨FilterMode.Default, []⟩ env hv info0 st) ∧
    (∀ (env : ChainEnv) (hv : Bool) (info0 : TextSelectionInfo) (st : HookState),
      (GetSelectedText ⟨FilterMode.IncludeList, []⟩ env hv info0 st).ok = false) ∧
    (∀ (e : Bool) (ftl : List Str) (genv : ClipboardGateEnv) (name : Str),
      ShouldProcessViaClipboard ⟨e, FilterMode.IncludeList, [], ftl⟩ genv name
        = false) ∧
    (∀ (e : Bool) (ftl : List Str) (genv : ClipboardGateEnv) (name : Str),
      ShouldProcessViaClipboard ⟨e, FilterMode.ExcludeList, [], ftl⟩ genv name =
        ShouldProcessViaClipboard ⟨e, FilterMode.Default, [], ftl⟩ genv name) := by
  refine ⟨fun name => rfl, ?_, ?_, ?_, ?_⟩
  · intro env hv info0 st
    unfold GetSelectedText
    split
    · rfl
    · split
      · rfl
      · unfold getSelectedTextChain
        cases env.programName <;> simp [IsInFilterList]
  · intro env hv info0 st
    unfold GetSelectedText
    split
    · rfl
    · split
      · rfl
      · unfold getSelectedTextChain
        cases env.programName <;> simp [IsInFilterList]
  · intro e ftl genv name
    unfold ShouldProcessViaClipboard
    simp [IsInFilterList]
  · intro e ftl genv name
    unfold ShouldProcessViaClipboard
    simp [IsInFilterList]

/-- C8: the code abstains from the clipboard pre-check on the very first
poll at which one of Ctrl/C/X/V is observed held, without sleeping
through the 5-poll window: with Ctrl held at poll 0 and released from
poll 1 on (and no clipboard-sequence change), the extraction returns
failure with no copy keystroke sent and the clipboard untouched —
whereas the claim (and the source's own comments) say the extractor
should keep polling and proceed once the keys are released.  The
direct-read part of the claim does hold: a sequence change observed
during the pre-check returns that content with no keystroke. -/
theorem precheck_aborts_on_first_held_poll :
    ((GetTextViaClipboard clipEnvCtrlHeldFirstPoll false true
        TextSelectionInfo.init).ok = false ∧
     (GetTextViaClipboard clipEnvCtrlHeldFirstPoll false true
        TextSelectionInfo.init).exit = ClipExit.preAbstain ∧
     (GetTextViaClipboard clipEnvCtrlHeldFirstPoll false true
        TextSelectionInfo.init).copyKeysSent = [] ∧
     (GetTextViaClipboard clipEnvCtrlHeldFirstPoll false true
        TextSelectionInfo.init).clip = clipEnvCtrlHeldFirstPoll.clip0 ∧
     clipEnvCtrlHeldFirstPoll.preCtrl 0 = true ∧
     clipEnvCtrlHeldFirstPoll.preCtrl 1 = false ∧
     (∀ i, clipEnvCtrlHeldFirstPoll.preSeqChanged i = false)) ∧
    ((GetTextViaClipboard clipEnvSeqChangedInPreCheck false true
        TextSelectionInfo.init).ok = true ∧
     (GetTextViaClipboard clipEnvSeqChangedInPreCheck false true
        TextSelectionInfo.init).text = "hi".toList ∧
     (GetTextViaClipboard clipEnvSeqChangedInPreCheck false true
        TextSelectionInfo.init).exit = ClipExit.preDirect ∧
     (GetTextViaClipboard clipEnvSeqChangedInPreCheck false true
        TextSelectionInfo.init).copyKeysSent = []) :=
  ⟨⟨by decide, by decide, by decide, by decide, by decide, by decide,
    fun i => rfl⟩,
   ⟨by decide, by decide, by decide, by decide⟩⟩

/-- C9 counterexample: a getCurrentSelection result produced by the
focused-control path carries positionLevel None (integer 0) together
with the non-zero corner points of the focused control's rectangle
(10,20,300,400), so the delivered-result invariant None-implies-zero-
corners is false. -/
theorem getCurrentSelection_none_poslevel_nonzero_corners :
    ((GetCurrentSelection true true (some 7) (some 7)
        ⟨FilterMode.Default, []⟩ chainEnvFocusRect ⟨false⟩).1.map
      fun o => (o.posLevel, o.startTopX, o.startTopY, o.endBottomX,
        o.endBottomY)) = some (0, 10, 20, 300, 400) :=
  by decide

/-- C9 (amended): gesture-triggered deliveries never carry positionLevel
None — ProcessMouseEvent upgrades a None level to MouseDual or
MouseSingle before delivering — so the zero-corner invariant holds
vacuously for them; only getCurrentSelection can deliver positionLevel
None with non-zero corners, via the focused-control path. -/
theorem gesture_delivery_upgrades_position_level (dt : SelectionDetectType)
    (down up lastlast : Pt) (info : TextSelectionInfo) :
    dt ≠ SelectionDetectType.None →
    (applyGesturePosition dt down up lastlast info).posLevel ≠
      SelectionPositionLevel.None := by
  cases dt with
  | None => intro h; exact absurd rfl h
  | Drag =>
    intro _
    simp only [applyGesturePosition]
    split
    · simp
    · simp_all
  | DoubleClick =>
    intro _
    simp only [applyGesturePosition]
    split
    · simp
    · simp_all
  | ShiftClick =>
    intro _
    simp only [applyGesturePosition]
    split
    · simp
    · simp_all

/-- C9 witness: a drag delivery of a positionLevel-None selection is
upgraded away from None. -/
theorem gesture_delivery_upgrades_position_level_witness :
    (applyGesturePosition SelectionDetectType.Drag ⟨1, 2⟩ ⟨3, 4⟩ ⟨0, 0⟩
      TextSelectionInfo.init).posLevel ≠ SelectionPositionLevel.None :=
  gesture_delivery_upgrades_position_level SelectionDetectType.Drag
    ⟨1, 2⟩ ⟨3, 4⟩ ⟨0, 0⟩ TextSelectionInfo.init (by decide)

/-- C10: getCurrentSelection targets the window under the cursor —
WindowFromPoint when it yields a window, the foreground window only as
fallback, and nothing when the cursor position is unavailable — while
gesture-triggered extraction always targets the foreground window; at a
state where window 1 is under the cursor and window 2 is foreground the
two entry points target different windows. -/
theorem target_window_resolution :
    (∀ (fg : Option Wnd) (w : Wnd),
      getCurrentSelectionTargetWindow true (some w) fg = some w) ∧
    (∀ fg : Option Wnd, getCurrentSelectionTargetWindow true none fg = fg) ∧
    (∀ wfp fg : Option Wnd, getCurrentSelectionTargetWindow false wfp fg = none) ∧
    (∀ fg : Option Wnd, gestureExtractionTargetWindow fg = fg) ∧
    getCurrentSelectionTargetWindow true (some 1) (some 2) ≠
      gestureExtractionTargetWindow (some 2) :=
  ⟨fun fg w => rfl, fun fg => rfl, fun wfp fg => rfl, fun fg => rfl, by decide⟩
